import Mathlib

/-!
Shallow embedding of the client-side data-shaping pipeline of the
RuleEngine administrative console (columns / conditions / rule-group
management screens): the server-to-UI adapters, the per-screen sort
comparators, the pagination slice, the sort-toggle and pagination
handlers, and the mutation / validation flows, as implemented in
`src/hooks/useColumns.ts`, the condition/rule management component file
and `src/components/Pagination.tsx`.

JavaScript primitives used by that code (`Number`, `parseInt`,
`String.prototype.trim/toLowerCase/localeCompare/slice`, stable
`Array.prototype.sort`) are modelled as executable Lean functions; the
model choices are documented on each definition.
-/

namespace RuleEngine

/-! ## Models of the JavaScript primitives used by the pipeline -/

/-- Sort direction, the `SortOrder = "asc" | "desc"` type of the screens. -/
inductive SortOrder where
  | asc
  | desc
deriving DecidableEq, Repr

/-- ASCII whitespace, the fragment of the whitespace classes of the
JavaScript `trim` / `parseInt` relevant to this development. -/
def isWsChar (c : Char) : Bool :=
  c = ' ' || c = '\t' || c = '\n' || c = '\r'

/-- Trim of a character list: drop whitespace at both ends. -/
def trimChars (cs : List Char) : List Char :=
  ((cs.dropWhile isWsChar).reverse.dropWhile isWsChar).reverse

/-- Model of JavaScript `String.prototype.trim` (kernel-reducible
replacement for `String.trim`). -/
def jsTrim (s : String) : String :=
  String.mk (trimChars s.toList)

/-- Model of JavaScript `String.prototype.toLowerCase` on the ASCII
range (kernel-reducible replacement for `String.toLower`). -/
def jsToLower (s : String) : String :=
  String.mk (s.toList.map Char.toLower)

/-- Value of a run of decimal digits. -/
def digitsToNat (cs : List Char) : Nat :=
  cs.foldl (fun n c => n * 10 + (c.toNat - 48)) 0

/-- Parse a non-empty all-digit character list, else `none`. -/
def parseAllDigits (cs : List Char) : Option Nat :=
  if cs ≠ [] ∧ cs.all Char.isDigit then some (digitsToNat cs) else none

/-- Model of the JavaScript `Number(string)` coercion, restricted to the
integer fragment: the string is trimmed; the empty (or all-whitespace)
string coerces to `0`; an optional single sign followed by decimal digits
coerces to the signed integer value; everything else (including
fractional and exponent forms, which do not occur in this development)
is `NaN`, modelled as `none`. -/
def jsNumber (s : String) : Option Int :=
  match trimChars s.toList with
  | [] => some 0
  | '-' :: rest => (parseAllDigits rest).map (fun n => -(n : Int))
  | '+' :: rest => (parseAllDigits rest).map (fun n => (n : Int))
  | cs => (parseAllDigits cs).map (fun n => (n : Int))

/-- Model of JavaScript `parseInt(s, 10)`: leading whitespace is skipped,
an optional sign is read, then the longest prefix of decimal digits; if
that prefix is empty the result is `NaN`, modelled as `none`. -/
def parseIntJs (s : String) : Option Int :=
  let cs := s.toList.dropWhile isWsChar
  match cs with
  | '-' :: rest => (parseAllDigits (rest.takeWhile Char.isDigit)).map (fun n => -(n : Int))
  | '+' :: rest => (parseAllDigits (rest.takeWhile Char.isDigit)).map (fun n => (n : Int))
  | _ => (parseAllDigits (cs.takeWhile Char.isDigit)).map (fun n => (n : Int))

/-- Lexicographic three-valued comparison of character lists by code
point. -/
def charListCompare : List Char → List Char → Int
  | [], [] => 0
  | [], _ :: _ => -1
  | _ :: _, [] => 1
  | a :: as, b :: bs =>
      if a.toNat < b.toNat then -1
      else if b.toNat < a.toNat then 1
      else charListCompare as bs

/-- Model of JavaScript `a.localeCompare(b)`: a three-valued comparison
returning a negative, zero or positive number. The locale-dependent
collation is modelled as lexicographic code-point comparison; the only
facts the development relies on are the sign convention and that equal
strings compare equal. -/
def localeCompare (a b : String) : Int :=
  charListCompare a.toList b.toList

/-- Model of JavaScript `Array.prototype.slice(start, stop)` for
non-negative indices: the elements at positions `[start, stop)`, clipped
to the array bounds. -/
def jsSlice (l : List α) (start stop : Nat) : List α :=
  (l.drop start).take (stop - start)

/-- One insertion step of the stable sort model: `x` is placed before the
first element `y` with `cmp x y ≤ 0`.  Because `x` originally preceded
every element of the list it is inserted into, ties (`cmp x y = 0`) keep
their original relative order, matching the stability guarantee of
`Array.prototype.sort`. -/
def insertCmp (cmp : α → α → Int) (x : α) : List α → List α
  | [] => [x]
  | y :: ys => if cmp x y ≤ 0 then x :: y :: ys else y :: insertCmp cmp x ys

/-- Model of the stable JavaScript `Array.prototype.sort(cmp)` (stable
per ES2019): insertion sort driven by the three-valued comparator. -/
def sortCmp (cmp : α → α → Int) : List α → List α
  | [] => []
  | x :: xs => insertCmp cmp x (sortCmp cmp xs)

/-- All three screens use a fixed page size of 10 (`itemsPerPage`). -/
def itemsPerPage : Nat := 10

/-- A toast notification, as raised through `react-toastify`. -/
inductive Toast where
  | success (msg : String)
  | error (msg : String)
deriving DecidableEq, Repr

/-! ## Columns screen (`src/hooks/useColumns.ts`, `ColumnManagement`) -/

/-- Column record as returned by the API (`Column` of the api service):
`id` may be absent (the code guards with `id?.toString() || ""`). -/
structure ApiColumn where
  id : Option Int
  columnName : String
deriving DecidableEq, Repr

/-- Response of `conditionsApi.getColumns`: an array plus an optional
`totalCount` (per §6 of the spec, read from a header when present).
`totalCount = some 0` and `totalCount = none` are both falsy to the
JavaScript `||` the screen applies to it. -/
structure ColumnsApiResponse where
  data : List ApiColumn
  totalCount : Option Nat
deriving DecidableEq, Repr

/-- The component-side column shape (`ColumnData`). -/
structure ColumnData where
  id : String
  columnName : String
deriving DecidableEq, Repr

/-- Sortable fields of the columns table (the two `SortableHeader`s). -/
inductive ColField where
  | id
  | columnName
deriving DecidableEq, Repr

/-- `a[sortField as keyof ColumnData]`. -/
def colField (c : ColumnData) : ColField → String
  | ColField.id => c.id
  | ColField.columnName => c.columnName

/-- The columns-screen sort comparator (body of the `.sort` callback in
`fetchColumns`): numeric comparison via `parseInt` for the `id` field,
otherwise lower-cased, trimmed, locale-aware string comparison, negated
for descending order.  When `parseInt` yields `NaN` the JavaScript
comparator returns `NaN`, which the runtime's sort treats like `0`;
the model returns `0` in that case. -/
def columnCompare (sortField : ColField) (sortOrder : SortOrder) (a b : ColumnData) : Int :=
  if sortField = ColField.id then
    match parseIntJs a.id, parseIntJs b.id with
    | some aValue, some bValue =>
        match sortOrder with
        | SortOrder.asc => aValue - bValue
        | SortOrder.desc => bValue - aValue
    | _, _ => 0
  else
    let aValue := jsTrim (jsToLower (colField a sortField))
    let bValue := jsTrim (jsToLower (colField b sortField))
    let aValue := if aValue = "" then "" else aValue
    let bValue := if bValue = "" then "" else bValue
    let comparison := localeCompare aValue bValue
    match sortOrder with
    | SortOrder.asc => comparison
    | SortOrder.desc => -comparison

/-- `id: apiColumn.id?.toString() || "", columnName: apiColumn.columnName`. -/
def transformColumn (c : ApiColumn) : ColumnData :=
  { id := match c.id with
      | some n => toString n
      | none => ""
    columnName := c.columnName }

/-- The `if (sortField) { ... .sort(...) }` step of `fetchColumns`
(`sortField` is typed `SortField | null` on this screen). -/
def sortColumns (sortField : Option ColField) (sortOrder : SortOrder)
    (l : List ColumnData) : List ColumnData :=
  match sortField with
  | some f => sortCmp (columnCompare f sortOrder) l
  | none => l

/-- The collection state a management screen displays. -/
structure ColumnsState where
  columns : List ColumnData
  totalCount : Nat
  error : Option String
deriving DecidableEq, Repr

/-- `fetchColumns` of the columns screen as a pure state transformer over
the outcome of the `getColumns` call.  On success: transform, sort,
slice `[(page-1)*10, page*10)`, and report
`response.totalCount || transformedColumns.length` as the total.  On
failure (the `catch` block): set the error and raise a toast, leaving
`columns` and `totalCount` untouched. -/
def fetchColumns (st : ColumnsState) (sortField : Option ColField) (sortOrder : SortOrder)
    (currentPage : Nat) (response : Except Unit ColumnsApiResponse) :
    ColumnsState × List Toast :=
  match response with
  | Except.error _ =>
      ({ st with error := some "Failed to fetch columns" },
       [Toast.error "Failed to fetch columns. Please try again."])
  | Except.ok resp =>
      let transformedColumns := (resp.data.map transformColumn)
      let transformedColumns := sortColumns sortField sortOrder transformedColumns
      let startIndex := (currentPage - 1) * itemsPerPage
      let endIndex := startIndex + itemsPerPage
      let paginatedColumns := jsSlice transformedColumns startIndex endIndex
      ({ columns := paginatedColumns,
         totalCount :=
           match resp.totalCount with
           | some n => if n = 0 then transformedColumns.length else n
           | none => transformedColumns.length,
         error := none },
       [])

/-- An HTTP call issued by the columns screen. -/
inductive ApiCall where
  | createColumn (columnName : String)
  | updateColumn (id : Option Int) (columnName : String)
  | deleteColumn (id : Option Int)
  | getColumns
deriving DecidableEq, Repr

/-- Observable outcome of one run of a columns-screen mutation handler. -/
structure MutationRun where
  state : ColumnsState
  nameError : String
  calls : List ApiCall
  toasts : List Toast
  modalClosed : Bool
deriving DecidableEq, Repr

/-- `handleAddColumn`: validation rejects a blank (empty after `trim`)
name by setting the per-field message and returning before any API
call; otherwise `createColumn` is issued and, on success, the list is
refreshed (`fetchColumns` catches its own errors, so the success path
continues regardless of the refresh outcome), the form is reset and the
modal closed; a failing create is caught, sets the screen error and
raises an error toast, touching neither the list nor the modal. -/
def handleAddColumn (st : ColumnsState) (sortField : Option ColField) (sortOrder : SortOrder)
    (currentPage : Nat) (columnName : String) (priorNameError : String)
    (createOutcome : Except Unit Unit) (fetchResponse : Except Unit ColumnsApiResponse) :
    MutationRun :=
  if jsTrim columnName = "" then
    { state := st
      nameError := "Column name cannot be empty."
      calls := []
      toasts := []
      modalClosed := false }
  else
    match createOutcome with
    | Except.error _ =>
        { state := { st with error := some "Failed to create column" }
          nameError := priorNameError
          calls := [ApiCall.createColumn columnName]
          toasts := [Toast.error "Failed to add column. Please try again."]
          modalClosed := false }
    | Except.ok _ =>
        let refreshed := fetchColumns st sortField sortOrder currentPage fetchResponse
        { state := refreshed.1
          nameError := ""
          calls := [ApiCall.createColumn columnName, ApiCall.getColumns]
          toasts := refreshed.2 ++ [Toast.success "Column added successfully!"]
          modalClosed := true }

/-- `handleEditColumn`: same validation as the add handler; the update
call is only issued when an `editMode` id is set (with no id the handler
still resets the form and closes the modal); a failing update is caught,
sets the screen error and raises an error toast, touching neither the
list nor the modal. -/
def handleEditColumn (st : ColumnsState) (sortField : Option ColField) (sortOrder : SortOrder)
    (currentPage : Nat) (editMode : Option String) (editColumnName : String)
    (priorNameError : String)
    (updateOutcome : Except Unit Unit) (fetchResponse : Except Unit ColumnsApiResponse) :
    MutationRun :=
  if jsTrim editColumnName = "" then
    { state := st
      nameError := "Column name cannot be empty."
      calls := []
      toasts := []
      modalClosed := false }
  else
    match editMode with
    | none =>
        { state := st
          nameError := ""
          calls := []
          toasts := [Toast.success "Column updated successfully!"]
          modalClosed := true }
    | some m =>
        match updateOutcome with
        | Except.error _ =>
            { state := { st with error := some "Failed to update column" }
              nameError := priorNameError
              calls := [ApiCall.updateColumn (parseIntJs m) editColumnName]
              toasts := [Toast.error "Failed to update column. Please try again."]
              modalClosed := false }
        | Except.ok _ =>
            let refreshed := fetchColumns st sortField sortOrder currentPage fetchResponse
            { state := refreshed.1
              nameError := ""
              calls := [ApiCall.updateColumn (parseIntJs m) editColumnName, ApiCall.getColumns]
              toasts := refreshed.2 ++ [Toast.success "Column updated successfully!"]
              modalClosed := true }

/-- `handleDeleteColumn`: issues the delete and refreshes on success; a
failing delete is caught, sets the screen error and raises an error
toast, leaving the displayed list untouched and issuing no retry. -/
def handleDeleteColumn (st : ColumnsState) (sortField : Option ColField) (sortOrder : SortOrder)
    (currentPage : Nat) (id : String)
    (deleteOutcome : Except Unit Unit) (fetchResponse : Except Unit ColumnsApiResponse) :
    MutationRun :=
  match deleteOutcome with
  | Except.error _ =>
      { state := { st with error := some "Failed to delete column" }
        nameError := ""
        calls := [ApiCall.deleteColumn (parseIntJs id)]
        toasts := [Toast.error "Failed to delete column. Please try again."]
        modalClosed := false }
  | Except.ok _ =>
      let refreshed := fetchColumns st sortField sortOrder currentPage fetchResponse
      { state := refreshed.1
        nameError := ""
        calls := [ApiCall.deleteColumn (parseIntJs id), ApiCall.getColumns]
        toasts := refreshed.2 ++ [Toast.success "Column deleted successfully!"]
        modalClosed := true }

/-- `handleSort` of the columns screen: clicking the current sort field
flips the order, clicking another field selects it and resets to
ascending (`sortField` is nullable on this screen). -/
def handleSortColumns (sortField : Option ColField) (sortOrder : SortOrder)
    (field : ColField) : Option ColField × SortOrder :=
  if some field = sortField then
    (sortField, match sortOrder with
      | SortOrder.asc => SortOrder.desc
      | SortOrder.desc => SortOrder.asc)
  else
    (some field, SortOrder.asc)

/-! ## Conditions screen (`ConditionManagement`) -/

/-- Condition record as returned by the API (`Condition` of the api
service).  `value` reaches the screen already stringified
(`apiCondition.value.toString()` is the identity on the string model). -/
structure APICondition where
  id : Option Int
  condition : String
  description : String
  operator : String
  columnName : Option String
  value : String
deriving DecidableEq, Repr

/-- The component-side condition shape. -/
structure Condition where
  id : String
  name : String
  description : String
  operators : String
  columnName : String
  value : String
deriving DecidableEq, Repr

/-- Sortable fields of the conditions table. -/
inductive CondField where
  | id
  | name
  | description
  | operators
  | columnName
  | value
deriving DecidableEq, Repr

/-- `a[sortField === 'name' ? 'name' : sortField]`, which is just
`a[sortField]`. -/
def condField (c : Condition) : CondField → String
  | CondField.id => c.id
  | CondField.name => c.name
  | CondField.description => c.description
  | CondField.operators => c.operators
  | CondField.columnName => c.columnName
  | CondField.value => c.value

/-- The record transform of `fetchConditions`
(`apiCondition.columnName || ""` yields the empty string both for an
absent and for an empty `columnName`). -/
def transformCondition (c : APICondition) : Condition :=
  { id := match c.id with
      | some n => toString n
      | none => ""
    name := c.condition
    description := c.description
    operators := c.operator
    columnName := c.columnName.getD ""
    value := c.value }

/-- The conditions-screen sort comparator (body of the `.sort` callback
in `fetchConditions`): `parseInt` comparison for `id`; for `value` a
numeric comparison is attempted first and used only when both sides
coerce to numbers; every remaining case is a lower-cased, trimmed,
locale-aware string comparison of the record's field values, negated for
descending order.  As for `columnCompare`, a `NaN` from `parseInt` is
modelled as a `0` comparator result. -/
def conditionCompare (sortField : CondField) (sortOrder : SortOrder) (a b : Condition) : Int :=
  if sortField = CondField.id then
    match parseIntJs a.id, parseIntJs b.id with
    | some aValue, some bValue =>
        match sortOrder with
        | SortOrder.asc => aValue - bValue
        | SortOrder.desc => bValue - aValue
    | _, _ => 0
  else
    let valueNumeric : Option Int :=
      if sortField = CondField.value then
        match jsNumber a.value, jsNumber b.value with
        | some aNum, some bNum =>
            some (match sortOrder with
              | SortOrder.asc => aNum - bNum
              | SortOrder.desc => bNum - aNum)
        | _, _ => none
      else none
    match valueNumeric with
    | some r => r
    | none =>
        let aValue := jsTrim (jsToLower (condField a sortField))
        let bValue := jsTrim (jsToLower (condField b sortField))
        let aValue := if aValue = "" then "" else aValue
        let bValue := if bValue = "" then "" else bValue
        let comparison := localeCompare aValue bValue
        match sortOrder with
        | SortOrder.asc => comparison
        | SortOrder.desc => -comparison

/-- The `if (sortField) { ... .sort(...) }` step of `fetchConditions`. -/
def sortConditions (sortField : Option CondField) (sortOrder : SortOrder)
    (l : List Condition) : List Condition :=
  match sortField with
  | some f => sortCmp (conditionCompare f sortOrder) l
  | none => l

/-- The collection state of the conditions screen. -/
structure ConditionsState where
  conditions : List Condition
  totalCount : Nat
  error : Option String
deriving DecidableEq, Repr

/-- `fetchConditions` as a pure state transformer over the outcome of
the `getConditions` call.  On success: transform, sort, slice, and
report the full sorted length as the total.  On failure (the `catch`
block): set the error, raise a toast, clear the list and reset the total
count to zero. -/
def fetchConditions (st : ConditionsState) (sortField : Option CondField)
    (sortOrder : SortOrder) (currentPage : Nat)
    (response : Except Unit (List APICondition)) : ConditionsState × List Toast :=
  match response with
  | Except.error _ =>
      ({ st with
          conditions := []
          totalCount := 0
          error := some "Failed to fetch conditions" },
       [Toast.error "Failed to fetch conditions. Please try again."])
  | Except.ok data =>
      let transformedConditions := data.map transformCondition
      let transformedConditions := sortConditions sortField sortOrder transformedConditions
      let startIndex := (currentPage - 1) * itemsPerPage
      let endIndex := startIndex + itemsPerPage
      ({ conditions := jsSlice transformedConditions startIndex endIndex
         totalCount := transformedConditions.length
         error := none },
       [])

/-- `handleSort` of the conditions screen (same toggle as the columns
screen, over the conditions field type). -/
def handleSortConditions (sortField : Option CondField) (sortOrder : SortOrder)
    (field : CondField) : Option CondField × SortOrder :=
  if some field = sortField then
    (sortField, match sortOrder with
      | SortOrder.asc => SortOrder.desc
      | SortOrder.desc => SortOrder.asc)
  else
    (some field, SortOrder.asc)

/-! ## Rules screen (`RuleApply`) -/

/-- A flattened UI condition entry of a rule. -/
structure RuleCondition where
  conditionName : String
  operator : String
deriving DecidableEq, Repr

/-- The UI rule shape (`Rule`). -/
structure Rule where
  id : Int
  ruleName : String
  description : Option String
  columnName : String
  value : String
  orderNumber : Int
  conditions : List RuleCondition
deriving DecidableEq, Repr

/-- Inner condition of a server-side rule-group sub-group. -/
structure ApiRuleGroupCondition where
  id : Int
  conditionId : Int
  subGroupId : Int
  description : String
  condition : String
deriving DecidableEq, Repr

/-- A server-side sub-group. -/
structure ApiSubGroup where
  id : Int
  parentGroupId : Int
  conditions : List ApiRuleGroupCondition
deriving DecidableEq, Repr

/-- The nested `column` reference of a server-side rule group. -/
structure ApiColumnRef where
  id : Int
  columnName : String
deriving DecidableEq, Repr

/-- The server shape `ApiRuleGroup` (`column`, `description` and
`subGroups` are optional). -/
structure ApiRuleGroup where
  id : Int
  column : Option ApiColumnRef
  description : Option String
  result : String
  groupOrder : Int
  subGroups : Option (List ApiSubGroup)
deriving DecidableEq, Repr

/-- The server-to-UI adapter `toUiRule`: flattens
`subGroups[].conditions[]` (via `flatMap`, absent `subGroups` giving
`[]` through `?? []`), each entry carrying
`c.description || c.condition` and an always-empty `operator`;
`ruleName` is `g.description ?? "Rule " + g.id` (nullish coalescing, so
a present empty description is kept), `columnName` is
`g.column?.columnName ?? ""`, `value` is `g.result` and `orderNumber`
is `g.groupOrder`. -/
def toUiRule (g : ApiRuleGroup) : Rule :=
  let flatConditions : List RuleCondition :=
    match g.subGroups with
    | some sgs =>
        (sgs.map (fun sg => sg.conditions.map (fun c =>
          { conditionName := if c.description = "" then c.condition else c.description
            operator := "" }))).flatten
    | none => []
  { id := g.id
    ruleName := match g.description with
      | some d => d
      | none => "Rule " ++ toString g.id
    description := g.description
    columnName := match g.column with
      | some col => col.columnName
      | none => ""
    value := g.result
    orderNumber := g.groupOrder
    conditions := flatConditions }

/-- Sortable fields of the rules table (`RuleSortField`). -/
inductive RuleSortField where
  | id
  | ruleName
  | description
  | columnName
  | value
  | orderNumber
deriving DecidableEq, Repr

/-- The frontend-to-API field-name mapping `sortFieldMap` built inside
`fetchRules` (an identity mapping in the source). -/
def sortFieldMap : RuleSortField → String
  | RuleSortField.id => "id"
  | RuleSortField.ruleName => "ruleName"
  | RuleSortField.description => "description"
  | RuleSortField.columnName => "columnName"
  | RuleSortField.value => "value"
  | RuleSortField.orderNumber => "orderNumber"

/-- The rules-screen sort comparator (body of the `.sort` callback in
`fetchRules`).  For `id`/`orderNumber` the fields are already numbers,
so `Number(a[sortField]) || 0` is the field itself; for `value` a
numeric comparison is attempted first.  Every remaining case reaches the
fallback branch, which — as written in the source — stringifies
`field = sortFieldMap[sortField]` (the mapped field NAME) on both sides
instead of the records' field values before the locale comparison. -/
def ruleCompare (sortField : RuleSortField) (sortOrder : SortOrder) (a b : Rule) : Int :=
  if sortField = RuleSortField.id ∨ sortField = RuleSortField.orderNumber then
    let aValue := if sortField = RuleSortField.id then a.id else a.orderNumber
    let bValue := if sortField = RuleSortField.id then b.id else b.orderNumber
    match sortOrder with
    | SortOrder.asc => aValue - bValue
    | SortOrder.desc => bValue - aValue
  else
    let valueNumeric : Option Int :=
      if sortField = RuleSortField.value then
        match jsNumber a.value, jsNumber b.value with
        | some aNum, some bNum =>
            some (match sortOrder with
              | SortOrder.asc => aNum - bNum
              | SortOrder.desc => bNum - aNum)
        | _, _ => none
      else none
    match valueNumeric with
    | some r => r
    | none =>
        let field := sortFieldMap sortField
        let aValue := jsTrim (jsToLower field)
        let bValue := jsTrim (jsToLower field)
        let aValue := if aValue = "" then "" else aValue
        let bValue := if bValue = "" then "" else bValue
        let comparison := localeCompare aValue bValue
        match sortOrder with
        | SortOrder.asc => comparison
        | SortOrder.desc => -comparison

/-- The collection state of the rules screen. -/
structure RulesState where
  rules : List Rule
  totalCount : Nat
  error : Option String
deriving DecidableEq, Repr

/-- `fetchRules` as a pure state transformer over the outcome of the
`getRuleGroups` call; `Except.ok none` models a response that is not an
array (the `Array.isArray` guard fails: rules cleared and error set, but
`totalCount` left as-is), `Except.error` the thrown case (the `catch`
block: rules cleared and total count reset to zero).  On success the
payload is adapted through `toUiRule`, always sorted (`sortField` is
non-null on this screen), sliced and counted. -/
def fetchRules (st : RulesState) (sortField : RuleSortField) (sortOrder : SortOrder)
    (currentPage : Nat) (response : Except Unit (Option (List ApiRuleGroup))) :
    RulesState × List Toast :=
  match response with
  | Except.error _ =>
      ({ st with
          rules := []
          totalCount := 0
          error := some "Failed to fetch rules" },
       [Toast.error "Failed to fetch rules. Please try again."])
  | Except.ok none =>
      ({ st with
          rules := []
          error := some "Failed to fetch rules" },
       [Toast.error "Failed to fetch rules. Please try again."])
  | Except.ok (some arr) =>
      let adapted := arr.map toUiRule
      let sortedRules := sortCmp (ruleCompare sortField sortOrder) adapted
      let startIndex := (currentPage - 1) * itemsPerPage
      let endIndex := startIndex + itemsPerPage
      ({ rules := jsSlice sortedRules startIndex endIndex
         totalCount := sortedRules.length
         error := none },
       [])

/-- `toggleSort` of the rules screen (`sortField` is non-nullable
here). -/
def toggleSortRules (sortField : RuleSortField) (sortOrder : SortOrder)
    (field : RuleSortField) : RuleSortField × SortOrder :=
  if sortField = field then
    (sortField, match sortOrder with
      | SortOrder.asc => SortOrder.desc
      | SortOrder.desc => SortOrder.asc)
  else
    (field, SortOrder.asc)

/-! ## Pagination component (`src/components/Pagination.tsx`) -/

/-- The First button: `setCurrentPage(1)`. -/
def paginationFirst : Int := 1

/-- The Previous button: `setCurrentPage((prev) => Math.max(prev - 1, 1))`. -/
def paginationPrev (prev : Int) : Int := max (prev - 1) 1

/-- The Next button:
`setCurrentPage((prev) => Math.min(prev + 1, totalPages))`. -/
def paginationNext (prev totalPages : Int) : Int := min (prev + 1) totalPages

/-- The Last button: `setCurrentPage(totalPages)`. -/
def paginationLast (totalPages : Int) : Int := totalPages

/-! ## Shared lemmas -/

/-- Comparing a character list with itself yields `0`. -/
theorem charListCompare_self (cs : List Char) : charListCompare cs cs = 0 := by
  induction cs with
  | nil => rfl
  | cons a as ih => simp [charListCompare, ih]

/-- `localeCompare` of a string with itself is `0`. -/
theorem localeCompare_self (s : String) : localeCompare s s = 0 := by
  simp [localeCompare, charListCompare_self]

/-- An element that compares non-positively with everything is inserted
at the front. -/
theorem insertCmp_of_nonpos (cmp : α → α → Int) (x : α) (l : List α)
    (h : ∀ y, cmp x y ≤ 0) : insertCmp cmp x l = x :: l := by
  cases l with
  | nil => rfl
  | cons y ys => simp [insertCmp, h y]

/-- Sorting with a comparator that always returns `0` leaves the list
unchanged (the stable sort keeps the original order of ties). -/
theorem sortCmp_eq_self_of_zero (cmp : α → α → Int) (h : ∀ a b, cmp a b = 0)
    (l : List α) : sortCmp cmp l = l := by
  induction l with
  | nil => rfl
  | cons x xs ih =>
      rw [sortCmp, ih, insertCmp_of_nonpos]
      intro y
      rw [h x y]

/-- The `if (!aValue) aValue = ''` guard of the comparators is the
identity on strings. -/
theorem ifEmptyGuard (s : String) : (if s = "" then "" else s) = s := by
  split
  next h => exact h.symm
  next => rfl

/-- On the non-numeric rule sort fields the comparator returns `0` for
every pair of records. -/
theorem ruleCompare_fallback_zero (f : RuleSortField)
    (hf : f = RuleSortField.ruleName ∨ f = RuleSortField.description ∨
          f = RuleSortField.columnName)
    (ord : SortOrder) (a b : Rule) : ruleCompare f ord a b = 0 := by
  rcases hf with h | h | h <;> subst h <;> cases ord <;>
    simp [ruleCompare, localeCompare_self]

/-! ## Claims -/

/-- Claim C1: on the Rule screen, for every sort field other than the
numeric fields (`id`, `orderNumber`, `value`), the fallback
string-compare branch of the sort comparator stringifies the
field-to-API-name mapping entry itself (`sortFieldMap`) rather than the
record's field value; consequently the comparator returns `0` for every
pair of adapted Rule records and the fallback string sort leaves the
adapted order unchanged. -/
theorem c1_rule_fallback_compares_mapping_entry (f : RuleSortField)
    (hf : f = RuleSortField.ruleName ∨ f = RuleSortField.description ∨
          f = RuleSortField.columnName)
    (ord : SortOrder) (a b : Rule) (l : List Rule) :
    ruleCompare f ord a b =
      (match ord with
        | SortOrder.asc =>
            localeCompare (jsTrim (jsToLower (sortFieldMap f)))
              (jsTrim (jsToLower (sortFieldMap f)))
        | SortOrder.desc =>
            -(localeCompare (jsTrim (jsToLower (sortFieldMap f)))
                (jsTrim (jsToLower (sortFieldMap f))))) ∧
    ruleCompare f ord a b = 0 ∧
    sortCmp (ruleCompare f ord) l = l := by
  refine ⟨?_, ruleCompare_fallback_zero f hf ord a b,
    sortCmp_eq_self_of_zero _ (fun x y => ruleCompare_fallback_zero f hf ord x y) l⟩
  rcases hf with h | h | h <;> subst h <;> cases ord <;>
    simp [ruleCompare, localeCompare_self]

/-- Witness for C1 at `ruleName` ascending with two concrete adapted
rules whose actual names are in descending order: the comparator still
returns `0` and the sort leaves them as adapted. -/
theorem c1_rule_fallback_compares_mapping_entry_witness :
    ruleCompare RuleSortField.ruleName SortOrder.asc
        ⟨1, "zz", some "zz", "b", "9", 2, []⟩ ⟨2, "aa", some "aa", "a", "1", 1, []⟩ = 0 ∧
    sortCmp (ruleCompare RuleSortField.ruleName SortOrder.asc)
        [⟨1, "zz", some "zz", "b", "9", 2, []⟩, ⟨2, "aa", some "aa", "a", "1", 1, []⟩] =
      [⟨1, "zz", some "zz", "b", "9", 2, []⟩, ⟨2, "aa", some "aa", "a", "1", 1, []⟩] := by
  have h := c1_rule_fallback_compares_mapping_entry RuleSortField.ruleName
    (Or.inl rfl) SortOrder.asc
    ⟨1, "zz", some "zz", "b", "9", 2, []⟩ ⟨2, "aa", some "aa", "a", "1", 1, []⟩
    [⟨1, "zz", some "zz", "b", "9", 2, []⟩, ⟨2, "aa", some "aa", "a", "1", 1, []⟩]
  exact ⟨h.2.1, h.2.2⟩

/-- Claim C2: the adapter `toUiRule` maps every server RuleGroup to a
flat Rule with `ruleName` equal to the description when present and the
literal `"Rule {id}"` otherwise, `columnName` from the nested column (or
empty), `value = result`, `orderNumber = groupOrder`, `conditions` the
concatenation in sub-group order then inner condition order of each
condition's description-if-non-empty-else-condition with every operator
empty, and a missing `subGroups` yielding an empty conditions list. -/
theorem c2_toUiRule_adapter (g : ApiRuleGroup) :
    (toUiRule g).ruleName = (match g.description with
      | some d => d
      | none => "Rule " ++ toString g.id) ∧
    (toUiRule g).columnName = (match g.column with
      | some c => c.columnName
      | none => "") ∧
    (toUiRule g).value = g.result ∧
    (toUiRule g).orderNumber = g.groupOrder ∧
    ((toUiRule g).conditions.map RuleCondition.conditionName) =
      ((g.subGroups.getD []).map (fun sg =>
        sg.conditions.map (fun c =>
          if c.description = "" then c.condition else c.description))).flatten ∧
    ((toUiRule g).conditions.all (fun e => e.operator == "")) = true ∧
    (toUiRule { g with subGroups := none }).conditions = [] := by
  refine ⟨rfl, rfl, rfl, rfl, ?_, ?_, rfl⟩
  · cases hs : g.subGroups with
    | none => simp [toUiRule, hs]
    | some sgs =>
        simp [toUiRule, hs, List.map_flatten, List.map_map, Function.comp_def]
  · cases hs : g.subGroups with
    | none => simp [toUiRule, hs]
    | some sgs => simp [toUiRule, hs, List.all_eq_true]

/-- Counterexample to claim C3: on the Columns screen a failed fetch
does not reset the displayed collection — the previously shown non-empty
list and non-zero total count survive the `catch` block — and on the
Rules screen a shape error (non-array response) clears the list but
leaves the previous non-zero total count displayed. -/
theorem c3_fetch_error_keeps_stale_counterexample :
    (let res := (fetchColumns { columns := [⟨"1", "apple"⟩], totalCount := 1, error := none }
      (some ColField.columnName) SortOrder.asc 1 (Except.error ())).1
     res.columns = [⟨"1", "apple"⟩] ∧ res.totalCount = 1 ∧ res.columns ≠ []) ∧
    (let rres := (fetchRules
      { rules := [⟨1, "r", none, "", "", 1, []⟩], totalCount := 7, error := none }
      RuleSortField.ruleName SortOrder.asc 1 (Except.ok none)).1
     rres.rules = [] ∧ rres.totalCount = 7 ∧ rres.totalCount ≠ 0) := by
  decide

/-- Claim C3 (amended): a fetch failure that throws (network or shape
error reaching the `catch`) resets the Conditions and Rules screens'
displayed collection to the empty list with total count zero; on the
Rules screen a shape error caught by the `Array.isArray` guard clears
the list and surfaces the error but leaves the previous total count
unchanged; on the Columns screen a caught fetch error is surfaced
(error state and toast) but the previously displayed collection and
total count are both left unchanged. -/
theorem c3_fetch_error_collection_state (stc : ConditionsState) (str : RulesState)
    (stcol : ColumnsState) (cf : Option CondField) (rf : RuleSortField)
    (colf : Option ColField) (ord : SortOrder) (page : Nat) :
    (fetchConditions stc cf ord page (Except.error ())).1.conditions = [] ∧
    (fetchConditions stc cf ord page (Except.error ())).1.totalCount = 0 ∧
    (fetchRules str rf ord page (Except.error ())).1.rules = [] ∧
    (fetchRules str rf ord page (Except.error ())).1.totalCount = 0 ∧
    (fetchRules str rf ord page (Except.ok none)).1.rules = [] ∧
    (fetchRules str rf ord page (Except.ok none)).1.totalCount = str.totalCount ∧
    (fetchRules str rf ord page (Except.ok none)).1.error = some "Failed to fetch rules" ∧
    (fetchRules str rf ord page (Except.ok none)).2 =
      [Toast.error "Failed to fetch rules. Please try again."] ∧
    (fetchColumns stcol colf ord page (Except.error ())).1.columns = stcol.columns ∧
    (fetchColumns stcol colf ord page (Except.error ())).1.totalCount = stcol.totalCount ∧
    (fetchColumns stcol colf ord page (Except.error ())).1.error =
      some "Failed to fetch columns" ∧
    (fetchColumns stcol colf ord page (Except.error ())).2 =
      [Toast.error "Failed to fetch columns. Please try again."] :=
  ⟨rfl, rfl, rfl, rfl, rfl, rfl, rfl, rfl, rfl, rfl, rfl, rfl⟩

/-- On the Conditions screen, whenever either side of a `value` sort
fails the numeric parse, the comparator falls through to the string
comparison of the two values. -/
theorem conditionCompare_value_fallthrough (c d : Condition)
    (h : jsNumber c.value = none ∨ jsNumber d.value = none) :
    conditionCompare CondField.value SortOrder.asc c d =
      localeCompare (jsTrim (jsToLower c.value)) (jsTrim (jsToLower d.value)) := by
  rcases h with h | h
  · simp only [conditionCompare, h]
    simp [condField, ifEmptyGuard]
  · cases hc : jsNumber c.value with
    | none =>
        simp only [conditionCompare, hc]
        simp [condField, ifEmptyGuard]
    | some x =>
        simp only [conditionCompare, hc, h]
        simp [condField, ifEmptyGuard]

/-- On the Rules screen, whenever either side of a `value` sort fails
the numeric parse, the comparator falls into the degenerate fallback
branch and returns `0` (it compares the mapped field name with itself,
never the data). -/
theorem ruleCompare_value_fallthrough_zero (ord : SortOrder) (a b : Rule)
    (h : jsNumber a.value = none ∨ jsNumber b.value = none) :
    ruleCompare RuleSortField.value ord a b = 0 := by
  rcases h with h | h
  · cases ord <;> simp [ruleCompare, h, localeCompare_self, ifEmptyGuard]
  · cases ha : jsNumber a.value with
    | none => cases ord <;> simp [ruleCompare, ha, localeCompare_self, ifEmptyGuard]
    | some x => cases ord <;> simp [ruleCompare, ha, h, localeCompare_self, ifEmptyGuard]

/-- Counterexample to claim C4: on the Rules screen a non-numeric value
pair does not fall through to a string comparison of the data — the
comparator returns `0` for `"banana"` versus `"apple"` although the
string comparison of those values is positive. -/
theorem c4_rules_value_fallthrough_counterexample :
    jsNumber "banana" = none ∧ jsNumber "apple" = none ∧
    ruleCompare RuleSortField.value SortOrder.asc
      ⟨1, "r", none, "", "banana", 1, []⟩ ⟨2, "s", none, "", "apple", 2, []⟩ = 0 ∧
    localeCompare (jsTrim (jsToLower "banana")) (jsTrim (jsToLower "apple")) = 1 := by
  decide

/-- Claim C4 (amended): sorting by the `value` field attempts a numeric
parse of both sides and compares numerically when both parse (on the
Conditions and the Rules screens); otherwise the Conditions screen falls
through to the lower-cased, trimmed string comparison of the two values,
while the Rules screen falls through to its degenerate fallback branch,
which compares the mapped field name with itself and returns `0` for
every pair instead of comparing the data; the scenario
`[{id:3,value:"10"},{id:1,value:"2"}]` sorted by `value` ascending
yields ids `[1, 3]`, the numeric rather than the lexicographic order
(lexicographically `"10"` precedes `"2"`). -/
theorem c4_value_sort_numeric_first (a b : Condition) (x y : Int)
    (ha : jsNumber a.value = some x) (hb : jsNumber b.value = some y) :
    (conditionCompare CondField.value SortOrder.asc a b = x - y ∧
     conditionCompare CondField.value SortOrder.desc a b = y - x) ∧
    (∀ c d : Condition, jsNumber c.value = none ∨ jsNumber d.value = none →
       conditionCompare CondField.value SortOrder.asc c d =
         localeCompare (jsTrim (jsToLower c.value)) (jsTrim (jsToLower d.value))) ∧
    (ruleCompare RuleSortField.value SortOrder.asc
       { id := 1, ruleName := "r", description := none, columnName := "",
         value := a.value, orderNumber := 1, conditions := [] }
       { id := 2, ruleName := "s", description := none, columnName := "",
         value := b.value, orderNumber := 2, conditions := [] } = x - y) ∧
    (∀ (ord : SortOrder) (ra rb : Rule),
       jsNumber ra.value = none ∨ jsNumber rb.value = none →
         ruleCompare RuleSortField.value ord ra rb = 0) ∧
    ((sortConditions (some CondField.value) SortOrder.asc
        [⟨"3", "c3", "", "=", "col", "10"⟩, ⟨"1", "c1", "", "=", "col", "2"⟩]).map
      Condition.id = ["1", "3"]) ∧
    localeCompare "10" "2" = -1 := by
  refine ⟨⟨?_, ?_⟩, conditionCompare_value_fallthrough, ?_,
    fun ord ra rb h => ruleCompare_value_fallthrough_zero ord ra rb h,
    by decide, by decide⟩
  · simp [conditionCompare, ha, hb]
  · simp [conditionCompare, ha, hb]
  · simp [ruleCompare, ha, hb]

/-- Witness for C4 at the scenario values `"10"` and `"2"`. -/
theorem c4_value_sort_numeric_first_witness :
    jsNumber "10" = some 10 ∧ jsNumber "2" = some 2 ∧
    conditionCompare CondField.value SortOrder.asc
      ⟨"3", "c3", "", "=", "col", "10"⟩ ⟨"1", "c1", "", "=", "col", "2"⟩ = 10 - 2 := by
  have h := c4_value_sort_numeric_first
    ⟨"3", "c3", "", "=", "col", "10"⟩ ⟨"1", "c1", "", "=", "col", "2"⟩ 10 2
    (by decide) (by decide)
  exact ⟨by decide, by decide, h.1.1⟩

/-- Counterexample to claim C5: on the Columns screen the reported total
count is `response.totalCount || length`, not the length of the full
sorted array — with a server-provided total count of `5` and a
one-element array the screen reports `5`. -/
theorem c5_columns_totalCount_counterexample :
    (fetchColumns { columns := [], totalCount := 0, error := none }
       (some ColField.columnName) SortOrder.asc 1
       (Except.ok { data := [⟨some 1, "a"⟩], totalCount := some 5 })).1.totalCount = 5 ∧
    (sortColumns (some ColField.columnName) SortOrder.asc
       ([⟨some 1, "a"⟩].map transformColumn)).length = 1 ∧
    (5 : Nat) ≠ 1 := by
  decide

/-- Claim C5 (amended): the paginate pass returns exactly the
sub-sequence `[(page-1)*10, page*10)` of the fully sorted array, clipped
to the array bounds, with an empty slice and no error on an out-of-range
page; the Rules screen reports the length of the full sorted array as
the total count, while the Columns screen reports the server-provided
`response.totalCount` when present and non-zero and falls back to the
full sorted length otherwise. -/
theorem c5_paginate_slice_and_total (st : RulesState) (stc : ColumnsState)
    (data : List ApiRuleGroup) (cdata : List ApiColumn) (ct : Option Nat)
    (f : RuleSortField) (colf : Option ColField) (ord : SortOrder) (page : Nat) :
    (let sorted := sortCmp (ruleCompare f ord) (data.map toUiRule)
     let res := (fetchRules st f ord page (Except.ok (some data))).1
     res.rules = (sorted.drop ((page - 1) * itemsPerPage)).take itemsPerPage ∧
     res.totalCount = sorted.length ∧
     (sorted.length ≤ (page - 1) * itemsPerPage → res.rules = [])) ∧
    (let csorted := sortColumns colf ord (cdata.map transformColumn)
     let cres := (fetchColumns stc colf ord page (Except.ok ⟨cdata, ct⟩)).1
     cres.columns = (csorted.drop ((page - 1) * itemsPerPage)).take itemsPerPage ∧
     (ct = none → cres.totalCount = csorted.length) ∧
     (ct = some 0 → cres.totalCount = csorted.length) ∧
     (∀ n, ct = some n → n ≠ 0 → cres.totalCount = n) ∧
     (csorted.length ≤ (page - 1) * itemsPerPage → cres.columns = [])) := by
  constructor
  · refine ⟨?_, rfl, ?_⟩
    · simp [fetchRules, jsSlice]
    · intro h
      simp [fetchRules, jsSlice, List.drop_eq_nil_of_le h]
  · refine ⟨?_, ?_, ?_, ?_, ?_⟩
    · simp [fetchColumns, jsSlice]
    · intro h
      simp [fetchColumns, h]
    · intro h
      simp [fetchColumns, h]
    · intro n hn hne
      simp [fetchColumns, hn, hne]
    · intro h
      simp [fetchColumns, jsSlice, List.drop_eq_nil_of_le h]

/-- Witness for C5: with a single fetched rule group, requesting
out-of-range page 2 yields an empty slice without error, and with a
single fetched column and no server total count the Columns screen
reports the full sorted length. -/
theorem c5_paginate_slice_and_total_witness :
    (fetchRules { rules := [], totalCount := 0, error := none }
       RuleSortField.id SortOrder.asc 2
       (Except.ok (some [⟨1, none, none, "5", 1, none⟩]))).1.rules = [] ∧
    (fetchColumns { columns := [], totalCount := 0, error := none }
       (some ColField.columnName) SortOrder.asc 1
       (Except.ok ⟨[⟨some 1, "a"⟩], none⟩)).1.totalCount =
      (sortColumns (some ColField.columnName) SortOrder.asc
        ([⟨some 1, "a"⟩].map transformColumn)).length := by
  have h1 := c5_paginate_slice_and_total
    { rules := [], totalCount := 0, error := none }
    { columns := [], totalCount := 0, error := none }
    [⟨1, none, none, "5", 1, none⟩] [⟨some 1, "a"⟩] none
    RuleSortField.id (some ColField.columnName) SortOrder.asc 2
  have h2 := c5_paginate_slice_and_total
    { rules := [], totalCount := 0, error := none }
    { columns := [], totalCount := 0, error := none }
    [⟨1, none, none, "5", 1, none⟩] [⟨some 1, "a"⟩] none
    RuleSortField.id (some ColField.columnName) SortOrder.asc 1
  exact ⟨h1.1.2.2 (by decide), h2.2.2.1 rfl⟩

/-- Claim C6: submitting the add-column form with an empty or
all-whitespace column name is rejected client-side — the per-field error
message is set to exactly `"Column name cannot be empty."`, submission
is aborted (state and modal untouched) and no network call is made. -/
theorem c6_empty_column_name_rejected (st : ColumnsState) (sf : Option ColField)
    (ord : SortOrder) (page : Nat) (name priorErr : String)
    (co : Except Unit Unit) (fr : Except Unit ColumnsApiResponse)
    (h : jsTrim name = "") :
    handleAddColumn st sf ord page name priorErr co fr =
      { state := st, nameError := "Column name cannot be empty.", calls := [],
        toasts := [], modalClosed := false } := by
  simp [handleAddColumn, h]

/-- Witness for C6 at the empty and an all-whitespace name. -/
theorem c6_empty_column_name_rejected_witness :
    jsTrim "   " = "" ∧
    handleAddColumn { columns := [], totalCount := 0, error := none }
        (some ColField.columnName) SortOrder.asc 1 "   " ""
        (Except.ok ()) (Except.ok ⟨[], none⟩) =
      { state := { columns := [], totalCount := 0, error := none },
        nameError := "Column name cannot be empty.", calls := [],
        toasts := [], modalClosed := false } :=
  ⟨by decide,
   c6_empty_column_name_rejected { columns := [], totalCount := 0, error := none }
     (some ColField.columnName) SortOrder.asc 1 "   " ""
     (Except.ok ()) (Except.ok ⟨[], none⟩) (by decide)⟩

/-- Claim C7: a failing mutation call (create, update or delete) leaves
the current in-memory list and total count unchanged, shows exactly one
error notification, performs no automatic retry (exactly the one failed
call is issued, no refetch), and keeps the modal open. -/
theorem c7_failed_mutation_preserves_list (st : ColumnsState) (sf : Option ColField)
    (ord : SortOrder) (page : Nat) (idStr name ename priorErr m : String)
    (fr : Except Unit ColumnsApiResponse)
    (hname : ¬ jsTrim name = "") (hename : ¬ jsTrim ename = "") :
    (let del := handleDeleteColumn st sf ord page idStr (Except.error ()) fr
     del.state.columns = st.columns ∧ del.state.totalCount = st.totalCount ∧
     del.toasts = [Toast.error "Failed to delete column. Please try again."] ∧
     del.calls = [ApiCall.deleteColumn (parseIntJs idStr)] ∧ del.modalClosed = false) ∧
    (let add := handleAddColumn st sf ord page name priorErr (Except.error ()) fr
     add.state.columns = st.columns ∧ add.state.totalCount = st.totalCount ∧
     add.toasts = [Toast.error "Failed to add column. Please try again."] ∧
     add.calls = [ApiCall.createColumn name] ∧ add.modalClosed = false) ∧
    (let upd := handleEditColumn st sf ord page (some m) ename priorErr (Except.error ()) fr
     upd.state.columns = st.columns ∧ upd.state.totalCount = st.totalCount ∧
     upd.toasts = [Toast.error "Failed to update column. Please try again."] ∧
     upd.calls = [ApiCall.updateColumn (parseIntJs m) ename] ∧ upd.modalClosed = false) := by
  refine ⟨?_, ?_, ?_⟩ <;>
    simp [handleDeleteColumn, handleAddColumn, handleEditColumn, hname, hename]

/-- Witness for C7: a failed delete of row `"1"` leaves the previously
displayed row visible and raises the error toast. -/
theorem c7_failed_mutation_preserves_list_witness :
    (handleDeleteColumn { columns := [⟨"1", "apple"⟩], totalCount := 1, error := none }
        (some ColField.columnName) SortOrder.asc 1 "1"
        (Except.error ()) (Except.ok ⟨[], none⟩)).state.columns = [⟨"1", "apple"⟩] ∧
    (handleDeleteColumn { columns := [⟨"1", "apple"⟩], totalCount := 1, error := none }
        (some ColField.columnName) SortOrder.asc 1 "1"
        (Except.error ()) (Except.ok ⟨[], none⟩)).toasts =
      [Toast.error "Failed to delete column. Please try again."] := by
  have h := c7_failed_mutation_preserves_list
    { columns := [⟨"1", "apple"⟩], totalCount := 1, error := none }
    (some ColField.columnName) SortOrder.asc 1 "1" "x" "y" "" "2"
    (Except.ok ⟨[], none⟩) (by decide) (by decide)
  exact ⟨h.1.1, h.1.2.2.1⟩

/-- Claim C8: for every string (non-numeric) sort field the comparator
lower-cases and trims both values (the absent-value guard being the
identity on strings) and compares with the locale-aware string ordering,
descending negating the ascending result; in particular `" Beta "` and
`"beta"` compare equal. -/
theorem c8_string_sort_case_insensitive (a b : ColumnData) (c d : Condition)
    (f : CondField)
    (hf : f = CondField.name ∨ f = CondField.description ∨
          f = CondField.operators ∨ f = CondField.columnName) :
    (columnCompare ColField.columnName SortOrder.asc a b =
       localeCompare (jsTrim (jsToLower a.columnName)) (jsTrim (jsToLower b.columnName))) ∧
    (columnCompare ColField.columnName SortOrder.desc a b =
       -(columnCompare ColField.columnName SortOrder.asc a b)) ∧
    (conditionCompare f SortOrder.asc c d =
       localeCompare (jsTrim (jsToLower (condField c f))) (jsTrim (jsToLower (condField d f)))) ∧
    (conditionCompare f SortOrder.desc c d = -(conditionCompare f SortOrder.asc c d)) ∧
    (columnCompare ColField.columnName SortOrder.asc ⟨"1", " Beta "⟩ ⟨"2", "beta"⟩ = 0) ∧
    (conditionCompare CondField.name SortOrder.asc
       ⟨"1", " Beta ", "", "", "", ""⟩ ⟨"2", "beta", "", "", "", ""⟩ = 0) := by
  refine ⟨?_, ?_, ?_, ?_, by decide, by decide⟩
  · simp [columnCompare, colField, ifEmptyGuard]
  · simp [columnCompare, colField, ifEmptyGuard]
  · rcases hf with h | h | h | h <;> subst h <;>
      simp [conditionCompare, condField, ifEmptyGuard]
  · rcases hf with h | h | h | h <;> subst h <;>
      simp [conditionCompare, condField, ifEmptyGuard]

/-- Witness for C8 at the `name` field and the `" Beta "` / `"beta"`
records. -/
theorem c8_string_sort_case_insensitive_witness :
    conditionCompare CondField.name SortOrder.asc
        ⟨"1", " Beta ", "", "", "", ""⟩ ⟨"2", "beta", "", "", "", ""⟩ =
      localeCompare (jsTrim (jsToLower " Beta ")) (jsTrim (jsToLower "beta")) ∧
    localeCompare (jsTrim (jsToLower " Beta ")) (jsTrim (jsToLower "beta")) = 0 := by
  have h := c8_string_sort_case_insensitive ⟨"1", " Beta "⟩ ⟨"2", "beta"⟩
    ⟨"1", " Beta ", "", "", "", ""⟩ ⟨"2", "beta", "", "", "", ""⟩
    CondField.name (Or.inl rfl)
  exact ⟨h.2.2.1, by decide⟩

/-- Claim C9: on every screen, invoking the sort-toggle handler with the
current sort field leaves the field unchanged and flips the order, while
invoking it with any other field (or while no field is selected, on the
screens where the field is nullable) selects that field and resets the
order to ascending. -/
theorem c9_sort_toggle (ord : SortOrder) :
    (∀ f : ColField, handleSortColumns (some f) ord f =
      (some f, match ord with
        | SortOrder.asc => SortOrder.desc
        | SortOrder.desc => SortOrder.asc)) ∧
    (∀ f cur : ColField, cur ≠ f → handleSortColumns (some cur) ord f = (some f, SortOrder.asc)) ∧
    (∀ f : ColField, handleSortColumns none ord f = (some f, SortOrder.asc)) ∧
    (∀ f : CondField, handleSortConditions (some f) ord f =
      (some f, match ord with
        | SortOrder.asc => SortOrder.desc
        | SortOrder.desc => SortOrder.asc)) ∧
    (∀ f cur : CondField, cur ≠ f →
      handleSortConditions (some cur) ord f = (some f, SortOrder.asc)) ∧
    (∀ f : CondField, handleSortConditions none ord f = (some f, SortOrder.asc)) ∧
    (∀ f : RuleSortField, toggleSortRules f ord f =
      (f, match ord with
        | SortOrder.asc => SortOrder.desc
        | SortOrder.desc => SortOrder.asc)) ∧
    (∀ f cur : RuleSortField, cur ≠ f → toggleSortRules cur ord f = (f, SortOrder.asc)) := by
  refine ⟨?_, ?_, ?_, ?_, ?_, ?_, ?_, ?_⟩
  · intro f
    cases ord <;> simp [handleSortColumns]
  · intro f cur h
    simp [handleSortColumns, (h.symm : ¬ f = cur)]
  · intro f
    simp [handleSortColumns]
  · intro f
    cases ord <;> simp [handleSortConditions]
  · intro f cur h
    simp [handleSortConditions, (h.symm : ¬ f = cur)]
  · intro f
    simp [handleSortConditions]
  · intro f
    cases ord <;> simp [toggleSortRules]
  · intro f cur h
    simp [toggleSortRules, h]

/-- Witness for C9: toggling the current columns sort field flips the
order, toggling a different field resets to ascending. -/
theorem c9_sort_toggle_witness :
    handleSortColumns (some ColField.columnName) SortOrder.asc ColField.columnName =
      (some ColField.columnName, SortOrder.desc) ∧
    handleSortColumns (some ColField.id) SortOrder.desc ColField.columnName =
      (some ColField.columnName, SortOrder.asc) := by
  have h1 := (c9_sort_toggle SortOrder.asc).1 ColField.columnName
  have h2 := (c9_sort_toggle SortOrder.desc).2.1 ColField.columnName ColField.id (by decide)
  exact ⟨h1, h2⟩

/-- Claim C10: the pagination handlers keep the current page within
`[1, totalPages]` — Previous yields `max(page-1, 1)`, Next yields
`min(page+1, totalPages)`, First yields `1` and Last yields
`totalPages`, and starting from any page in the range no navigation
button leaves it. -/
theorem c10_pagination_stays_in_range (p tp : Int) (h1 : 1 ≤ p) (h2 : p ≤ tp) :
    (paginationPrev p = max (p - 1) 1 ∧ paginationNext p tp = min (p + 1) tp ∧
     paginationFirst = 1 ∧ paginationLast tp = tp) ∧
    (1 ≤ paginationPrev p ∧ paginationPrev p ≤ tp) ∧
    (1 ≤ paginationNext p tp ∧ paginationNext p tp ≤ tp) ∧
    (1 ≤ paginationFirst ∧ paginationFirst ≤ tp) ∧
    (1 ≤ paginationLast tp ∧ paginationLast tp ≤ tp) := by
  refine ⟨⟨rfl, rfl, rfl, rfl⟩, ?_⟩
  simp only [paginationPrev, paginationNext, paginationFirst, paginationLast]
  omega

/-- Witness for C10 at page 2 of 3. -/
theorem c10_pagination_stays_in_range_witness :
    (1 ≤ paginationPrev 2 ∧ paginationPrev 2 ≤ 3) ∧
    (1 ≤ paginationNext 2 3 ∧ paginationNext 2 3 ≤ 3) :=
  ⟨(c10_pagination_stays_in_range 2 3 (by decide) (by decide)).2.1,
   (c10_pagination_stays_in_range 2 3 (by decide) (by decide)).2.2.1⟩

end RuleEngine
